import Mathlib

/-!
Verification of the recursive-descent parser front end of the compiler
(`src/unnamed/part_000`, parser document, plus the orchestration in `main`).

The Go source is shallowly embedded: the mutable `TokenChannel` becomes
explicit state passing (`TokenChannel → α × TokenChannel`), the lexer's
output channel becomes the list of tokens it still has to deliver (an empty
list models a closed channel, on which a Go receive yields the zero-value
`Token` immediately), Go `error` values become `Option PError`, and the
unbounded recursion of the parser is made structural with a `fuel`
parameter that every nested call decrements.  Running out of fuel returns
a non-critical error (for the node parsers) or acts like the loop's
`break` (for the three accumulation loops); real executions of the Go code
correspond to any sufficiently large fuel.
-/

/-- Modelled from the spec: the lexer file defining the `TokenType`
enumeration is not under `src/`; the parser document only references the
constants below.  Per section 4.2 of the spec, an exhausted stream yields a
designated end-of-input token, which in Go is the zero value of `Token`;
the zero value of the enumeration is modelled as the dedicated constructor
`TOKEN_EOF`, which no production accepts. -/
inductive TokenType where
  | TOKEN_EOF
  | TOKEN_IDENTIFIER
  | TOKEN_KEYWORD
  | TOKEN_CONSTANT
  | TOKEN_OPERATOR
  | TOKEN_SEPARATOR
  | TOKEN_ASSIGNMENT
  | TOKEN_SEMICOLON
  | TOKEN_PARENTHESIS_OPEN
  | TOKEN_PARENTHESIS_CLOSE
  | TOKEN_CURLY_OPEN
  | TOKEN_CURLY_CLOSE
deriving DecidableEq, Repr

export TokenType (TOKEN_EOF TOKEN_IDENTIFIER TOKEN_KEYWORD TOKEN_CONSTANT
  TOKEN_OPERATOR TOKEN_SEPARATOR TOKEN_ASSIGNMENT TOKEN_SEMICOLON
  TOKEN_PARENTHESIS_OPEN TOKEN_PARENTHESIS_CLOSE TOKEN_CURLY_OPEN
  TOKEN_CURLY_CLOSE)

instance : BEq TokenType := ⟨fun a b => decide (a = b)⟩

/-- A token as consumed by the parser: `tokenType` and `value`.  The Go
`Token` also carries line/column fields, which the parser document never
reads; they are omitted. -/
structure Token where
  tokenType : TokenType
  value : String
deriving DecidableEq, Repr

/-- Go's zero value of `Token`, received from a closed token channel. -/
def zeroToken : Token := ⟨TOKEN_EOF, ""⟩

/-- `TokenChannel` (source lines 463-467): the single-slot pushback cache in
front of the lexer's channel.  The field `c` is the list of tokens the
(already finished) lexer still has to deliver; `[]` models the closed
channel. -/
structure TokenChannel where
  c : List Token
  isCached : Bool
  token : Token
deriving DecidableEq, Repr

/-- `TokenChannel.next` (source lines 469-479): consume the cached token if
present, otherwise receive from the channel; a receive on the closed
channel yields the zero-value token (the Go code also prints
"Channel closed unexpectedly.", a side effect not modelled). -/
def TokenChannel.next (tc : TokenChannel) : Token × TokenChannel :=
  if tc.isCached then
    (tc.token, { tc with isCached := false })
  else
    match tc.c with
    | [] => (zeroToken, tc)
    | t :: rest => (t, { tc with c := rest })

/-- `TokenChannel.pushBack` (source lines 481-488): store one token to be
replayed by the next `next`.  The returned `Bool` is `true` when the Go
code prints the usage error "Can only cache one item at a time." and drops
the token without storing it. -/
def TokenChannel.pushBack (tc : TokenChannel) (t : Token) : TokenChannel × Bool :=
  if tc.isCached then
    (tc, true)
  else
    ({ tc with token := t, isCached := true }, false)

/-- The channel state `parse` starts from (source lines 900-901):
`var tokenChan TokenChannel; tokenChan.c = tokens` — pushback slot empty,
`token` at its zero value. -/
def TokenChannel.fromList (ts : List Token) : TokenChannel :=
  ⟨ts, false, zeroToken⟩

/-- The sequence of tokens the channel will deliver before it is exhausted:
the cached token, if any, followed by the channel contents. -/
def TokenChannel.toList (tc : TokenChannel) : List Token :=
  (if tc.isCached then [tc.token] else []) ++ tc.c

/-- `Type` of the source (src lines 173-180, 223); named `Ty` because
`Type` is reserved in Lean.  The first constructor is Go's zero value. -/
inductive Ty where
  | TYPE_INT
  | TYPE_STRING
  | TYPE_FLOAT
  | TYPE_BOOL
  | TYPE_UNKNOWN
deriving DecidableEq, Repr

export Ty (TYPE_INT TYPE_STRING TYPE_FLOAT TYPE_BOOL TYPE_UNKNOWN)

/-- `Operator` (src lines 181-201, 224). -/
inductive Operator where
  | OP_PLUS
  | OP_MINUS
  | OP_MULT
  | OP_DIV
  | OP_NEGATIVE
  | OP_NOT
  | OP_EQ
  | OP_NE
  | OP_LE
  | OP_GE
  | OP_LESS
  | OP_GREATER
  | OP_AND
  | OP_OR
  | OP_UNKNOWN
deriving DecidableEq, Repr

export Operator (OP_PLUS OP_MINUS OP_MULT OP_DIV OP_NEGATIVE OP_NOT OP_EQ
  OP_NE OP_LE OP_GE OP_LESS OP_GREATER OP_AND OP_OR OP_UNKNOWN)

/-- `Variable` expression node (src lines 248-252). -/
structure Variable where
  vType : Ty
  vName : String
  vShadow : Bool
deriving DecidableEq, Repr

/-- `Constant` expression node (src lines 253-256). -/
structure Constant where
  cType : Ty
  cValue : String
deriving DecidableEq, Repr

/-- The `Expression` interface (src lines 239-242) with its four
implementations `Variable`, `Constant`, `BinaryOp` (src lines 257-262) and
`UnaryOp` (src lines 263-267), closed into a sum type. -/
inductive Expression where
  | var (v : Variable)
  | const (c : Constant)
  | binaryOp (operator : Operator) (leftExpr : Expression)
      (rightExpr : Expression) (opType : Ty)
  | unaryOp (operator : Operator) (expr : Expression) (opType : Ty)
deriving DecidableEq, Repr

/-- `Assignment` statement node (src lines 284-287).  The field name
`variables` is a reserved word in Lean and has to be escaped in the
declaration; uses read as in Go (`a.variables`). -/
structure Assignment where
  «variables» : List Variable
  expressions : List Expression
deriving DecidableEq, Repr

/-- The `Statement` interface (src lines 235-238) with its implementations
`Block` (src lines 278-282), `Assignment`, `Condition` (src lines 289-293)
and `Loop` (src lines 295-300), closed into a sum type.  A `Block`'s two
symbol-table fields are omitted: the parser never writes them (they are
populated by semantic analysis, which is outside these claims), so a block
is its statement list here.  `Condition.expression` is an interface field
in Go and `nil` in the zero value, hence `Option Expression`. -/
inductive Statement where
  | block (statements : List Statement)
  | assignment (a : Assignment)
  | condition (expression : Option Expression) (condBlock : List Statement)
      (elseBlock : List Statement)
  | loop (assignment : Assignment) (expressions : List Expression)
      (incrAssignment : Assignment) (loopBlock : List Statement)
deriving Repr

/-- The struct built by `parseCondition` (src lines 752-806); converted to
a `Statement.condition` when appended to a block. -/
structure Condition where
  expression : Option Expression := none
  block : List Statement := []
  elseBlock : List Statement := []
deriving Repr

/-- The struct built by `parseLoop` (src lines 808-858). -/
structure Loop where
  assignment : Assignment := ⟨[], []⟩
  expressions : List Expression := []
  incrAssignment : Assignment := ⟨[], []⟩
  block : List Statement := []
deriving Repr

/-- `AST` (src lines 218-221); the parser never touches
`globalSymbolTable`, so only `block` is modelled (as its statement list,
see `Statement`). -/
structure AST where
  block : List Statement
deriving Repr

/-- A Go `error` value as produced by the parser: its message and whether
`errors.Is(err, ErrCritical)` holds for it, i.e. whether the `%w`-wrap
chain reaches the sentinel `ErrCritical` (src line 207). -/
structure PError where
  msg : String
  critical : Bool
deriving DecidableEq, Repr

/-- `errors.New(...)`: a fresh error, whose wrap chain is empty, so it
never satisfies `errors.Is(·, ErrCritical)`. -/
def errNew (msg : String) : PError := ⟨msg, false⟩

/-- `fmt.Errorf("%w"++suffix, e)`: wraps `e`, so it is critical exactly
when `e` is. -/
def errWrap (e : PError) (suffix : String) : PError := ⟨e.msg ++ suffix, e.critical⟩

/-- The artifact error returned by fueled node parsers when the fuel runs
out; like every parser error it is non-critical. -/
def fuelErr : PError := errNew "out of fuel"

/-- The result of a Go parser function: the named return value, the
`error` return value, and the state the `*TokenChannel` was left in. -/
structure Res (α : Type) where
  val : α
  err : Option PError
  tc : TokenChannel
deriving Repr

/-- `getOperatorType` (src lines 494-525). -/
def getOperatorType (o : String) : Operator :=
  if o == "+" then OP_PLUS
  else if o == "-" then OP_MINUS
  else if o == "*" then OP_MULT
  else if o == "/" then OP_DIV
  else if o == "==" then OP_EQ
  else if o == "!=" then OP_NE
  else if o == "<=" then OP_LE
  else if o == ">=" then OP_GE
  else if o == "<" then OP_LESS
  else if o == ">" then OP_GREATER
  else if o == "&&" then OP_AND
  else if o == "||" then OP_OR
  else if o == "!" then OP_NOT
  else OP_UNKNOWN

/-- `expectType` (src lines 527-534): read one token; if its type differs
from `ttype`, push it back and report failure. -/
def expectType (tokens : TokenChannel) (ttype : TokenType) :
    String × Bool × TokenChannel :=
  let (t, tokens1) := tokens.next
  if t.tokenType != ttype then
    ("", false, (tokens1.pushBack t).1)
  else
    (t.value, true, tokens1)

/-- `expect` (src lines 536-543): read one token; if its type or value
differs, push it back and report failure. -/
def expect (tokens : TokenChannel) (ttype : TokenType) (value : String) :
    Bool × TokenChannel :=
  let (t, tokens1) := tokens.next
  if t.tokenType != ttype || t.value != value then
    (false, (tokens1.pushBack t).1)
  else
    (true, tokens1)

/-- `parseVariable` (src lines 545-553).  Note that a consumed `shadow`
keyword is not pushed back when the following identifier is missing. -/
def parseVariable (tokens : TokenChannel) : Variable × Bool × TokenChannel :=
  let (shadowing, tokens1) := expect tokens TOKEN_KEYWORD "shadow"
  match expectType tokens1 TOKEN_IDENTIFIER with
  | (v, true, tokens2) => (⟨TYPE_UNKNOWN, v, shadowing⟩, true, tokens2)
  | (_, false, tokens2) => (⟨TYPE_INT, "", false⟩, false, tokens2)

/-- Character-list counterpart of Go's `\d`. -/
def isDigitChar (c : Char) : Bool := c.isDigit

/-- One-or-more digits immediately followed by a dot: the `\d+\.` core of
the float pattern, matched at the start of the list. -/
def digitsDot : List Char → Bool
  | c :: d :: rest => c.isDigit && (d == '.' || digitsDot (d :: rest))
  | _ => false

/-- The `-?` of the numeric patterns: drop one leading minus if present. -/
def stripMinus : List Char → List Char
  | '-' :: rest => rest
  | cs => cs

/-- Start-anchored match of `rFloat := ^(-?\d+\.\d*)` (src line 574); the
trailing `\d*` always matches, so only `-?\d+\.` constrains the input. -/
def floatLead (cs : List Char) : Bool :=
  digitsDot (stripMinus cs)

/-- Start-anchored match of `rInt := ^(-?\d+)` (src line 575): after the
optional minus, at least one digit. -/
def intLead (cs : List Char) : Bool :=
  match stripMinus cs with
  | c :: _ => c.isDigit
  | [] => false

/-- Start-anchored match of `rString := ^(".*")` (src line 576); Go's `.`
does not match a newline, so the pattern matches iff the text starts with
a quote and a second quote occurs before any newline. -/
def stringLead : List Char → Bool
  | '"' :: rest => (rest.takeWhile (fun c => c != '\n')).contains '"'
  | _ => false

/-- Start-anchored match of `rBool := ^(true|false)` (src line 577). -/
def leadsWith : List Char → List Char → Bool
  | [], _ => true
  | _ :: _, [] => false
  | p :: ps, c :: cs => p == c && leadsWith ps cs

def boolLead (cs : List Char) : Bool :=
  leadsWith "true".data cs || leadsWith "false".data cs

/-- `getConstType` (src lines 573-593): try the four start-anchored
patterns in order float, int, string, bool; `FindIndex` is non-nil exactly
when the pattern matches a prefix of the text. -/
def getConstType (c : String) : Ty :=
  let cByte := c.data
  if floatLead cByte then TYPE_FLOAT
  else if intLead cByte then TYPE_INT
  else if stringLead cByte then TYPE_STRING
  else if boolLead cByte then TYPE_BOOL
  else TYPE_UNKNOWN

/-- `parseConstant` (src lines 595-601). -/
def parseConstant (tokens : TokenChannel) : Constant × Bool × TokenChannel :=
  match expectType tokens TOKEN_CONSTANT with
  | (v, true, tokens1) => (⟨getConstType v, v⟩, true, tokens1)
  | (_, false, tokens1) => (⟨TYPE_INT, ""⟩, false, tokens1)

/-- Parser error message used when an expression list ends in a `,`
(src line 710). -/
def exprListAfterCommaMsg : String :=
  "Expected expression in expression list after \x27,\x27, got something else"

/-
The recursive parser functions (src lines 555-571 and 604-896).  The Go
functions recurse and loop without an explicit bound; here every nested
call and every loop iteration decrements a `fuel` counter so that the
recursion is structural.  Running out of fuel yields the non-critical
`fuelErr` in a node parser, and acts like the loop's `break` in the three
accumulation loops (`parseVarList`, `parseExpressionList`,
`parseStatementList`), which in Go terminate by breaking.  The three Go
loops are written as tail-recursive `...Loop` functions carrying the
accumulated slice (and for the expression list the iteration counter `i`);
the Go entry points appear after the mutual block as wrappers starting
from the empty accumulator.
-/
mutual

/-- `parseSimpleExpression` (src lines 604-636): a variable, a constant,
or a parenthesised expression. -/
def parseSimpleExpression : Nat → TokenChannel → Res (Option Expression)
  | 0, tokens => ⟨none, some fuelErr, tokens⟩
  | n+1, tokens =>
    match parseVariable tokens with
    | (tmpV, true, tokens1) => ⟨some (Expression.var tmpV), none, tokens1⟩
    | (_, false, tokens1) =>
      match parseConstant tokens1 with
      | (tmpC, true, tokens2) => ⟨some (Expression.const tmpC), none, tokens2⟩
      | (_, false, tokens2) =>
        match expect tokens2 TOKEN_PARENTHESIS_OPEN "(" with
        | (true, tokens3) =>
          match parseExpression n tokens3 with
          | ⟨_, some _, tokens4⟩ =>
            ⟨none, some (errNew "Invalid expression in ()"), tokens4⟩
          | ⟨e, none, tokens4⟩ =>
            match expect tokens4 TOKEN_PARENTHESIS_CLOSE ")" with
            | (true, tokens5) => ⟨e, none, tokens5⟩
            | (false, tokens5) =>
              ⟨e, some (errNew "Expected \x27)\x27, got something else"), tokens5⟩
        | (false, tokens3) =>
          ⟨none, some (errNew "Invalid simple expression"), tokens3⟩

/-- `parseUnaryExpression` (src lines 638-664): `-` or `!` followed by an
expression. -/
def parseUnaryExpression : Nat → TokenChannel → Res (Option Expression)
  | 0, tokens => ⟨none, some fuelErr, tokens⟩
  | n+1, tokens =>
    match expect tokens TOKEN_OPERATOR "-" with
    | (true, tokens1) =>
      match parseExpression n tokens1 with
      | ⟨_, some _, tokens2⟩ =>
        ⟨none, some (errNew "Invalid expression after unary \x27-\x27"), tokens2⟩
      | ⟨e, none, tokens2⟩ =>
        ⟨e.map (fun e0 => Expression.unaryOp OP_NEGATIVE e0 TYPE_UNKNOWN), none, tokens2⟩
    | (false, tokens1) =>
      match expect tokens1 TOKEN_OPERATOR "!" with
      | (true, tokens2) =>
        match parseExpression n tokens2 with
        | ⟨_, some _, tokens3⟩ =>
          ⟨none, some (errNew "Invalid expression after unary \x27!\x27"), tokens3⟩
        | ⟨e, none, tokens3⟩ =>
          ⟨e.map (fun e0 => Expression.unaryOp OP_NOT e0 TYPE_UNKNOWN), none, tokens3⟩
      | (false, tokens2) =>
        ⟨none, some (errNew "Invalid unary expression"), tokens2⟩

/-- `parseExpression` (src lines 666-696): a unary or simple expression,
then — if the next token is any operator token — the whole rest of the
input as the right-hand side of one binary operation (right recursion, no
precedence). -/
def parseExpression : Nat → TokenChannel → Res (Option Expression)
  | 0, tokens => ⟨none, some fuelErr, tokens⟩
  | n+1, tokens =>
    match parseUnaryExpression n tokens with
    | ⟨unaryExpression, none, tokens1⟩ =>
      match expectType tokens1 TOKEN_OPERATOR with
      | (t, true, tokens2) =>
        match parseExpression n tokens2 with
        | ⟨_, some _, tokens3⟩ =>
          ⟨unaryExpression,
            some (errNew "Invalid expression on right hand side of binary operation"), tokens3⟩
        | ⟨rightHandExpr, none, tokens3⟩ =>
          ⟨(match unaryExpression, rightHandExpr with
            | some l, some r => some (Expression.binaryOp (getOperatorType t) l r TYPE_UNKNOWN)
            | _, _ => none), none, tokens3⟩
      | (_, false, tokens2) => ⟨unaryExpression, none, tokens2⟩
    | ⟨_, some _, tokens1⟩ =>
      match parseSimpleExpression n tokens1 with
      | ⟨_, some _, tokens2⟩ =>
        ⟨none, some (errNew "Simple expression expected, got something else"), tokens2⟩
      | ⟨simpleExpression, none, tokens2⟩ =>
        match expectType tokens2 TOKEN_OPERATOR with
        | (t, true, tokens3) =>
          match parseExpression n tokens3 with
          | ⟨_, some _, tokens4⟩ =>
            ⟨simpleExpression,
              some (errNew "Invalid expression on right hand side of binary operation"), tokens4⟩
          | ⟨rightHandExpr, none, tokens4⟩ =>
            ⟨(match simpleExpression, rightHandExpr with
              | some l, some r => some (Expression.binaryOp (getOperatorType t) l r TYPE_UNKNOWN)
              | _, _ => none), none, tokens4⟩
        | (_, false, tokens3) => ⟨simpleExpression, none, tokens3⟩

/-- The loop of `parseExpressionList` (src lines 698-723), carrying the
accumulated `expressions` and the iteration counter `i`.  On a failed
`parseExpression` with `i == 0` the list so far (empty) is returned with
no error; with `i > 0` the list is reset to nil and the after-comma error
is returned. -/
def parseExpressionListLoop : Nat → List Expression → Nat → TokenChannel → Res (List Expression)
  | 0, acc, _, tc => ⟨acc, none, tc⟩
  | n+1, acc, i, tc =>
    match parseExpression n tc with
    | ⟨_, some _, tc1⟩ =>
      if i == 0 then ⟨acc, none, tc1⟩
      else ⟨[], some (errNew exprListAfterCommaMsg), tc1⟩
    | ⟨e, none, tc1⟩ =>
      let acc1 := acc ++ e.toList
      match expect tc1 TOKEN_SEPARATOR "," with
      | (false, tc2) => ⟨acc1, none, tc2⟩
      | (true, tc2) => parseExpressionListLoop n acc1 (i + 1) tc2

/-- The loop of `parseVarList` (src lines 555-571), carrying the
accumulated `variables`.  Note that a failed `parseVariable` at any
iteration resets the whole list to nil. -/
def parseVarListLoop : Nat → List Variable → TokenChannel → List Variable × TokenChannel
  | 0, acc, tc => (acc, tc)
  | n+1, acc, tc =>
    match parseVariable tc with
    | (_, false, tc1) => ([], tc1)
    | (v, true, tc1) =>
      match expect tc1 TOKEN_SEPARATOR "," with
      | (false, tc2) => (acc ++ [v], tc2)
      | (true, tc2) => parseVarListLoop n (acc ++ [v]) tc2

/-- `parseAssignment` (src lines 726-749): a nonempty variable list, `=`,
then an expression list (whose length is not compared to the variable
list's). -/
def parseAssignment : Nat → TokenChannel → Res Assignment
  | 0, tc => ⟨⟨[], []⟩, some fuelErr, tc⟩
  | n+1, tc =>
    match parseVarListLoop n [] tc with
    | (vars, tc1) =>
      if vars.length == 0 then
        ⟨⟨[], []⟩, some (errNew "Expected variable in assignment, got something else"), tc1⟩
      else
        match expect tc1 TOKEN_ASSIGNMENT "=" with
        | (false, tc2) =>
          ⟨⟨[], []⟩, some (errNew "Expected \x27=\x27 in assignment, got something else"), tc2⟩
        | (true, tc2) =>
          match parseExpressionListLoop n [] 0 tc2 with
          | ⟨_, some e, tc3⟩ =>
            ⟨⟨[], []⟩, some (errNew ("Invalid expression list in assignment -- " ++ e.msg)), tc3⟩
          | ⟨exprs, none, tc3⟩ => ⟨⟨vars, exprs⟩, none, tc3⟩

/-- `parseCondition` (src lines 752-806): `if`, expression, `{`, block,
`}`, optional `else { block }`.  The partially filled `condition` struct
is returned on the error paths of the else part, as in Go. -/
def parseCondition : Nat → TokenChannel → Res Condition
  | 0, tc => ⟨{}, some fuelErr, tc⟩
  | n+1, tc =>
    match expect tc TOKEN_KEYWORD "if" with
    | (false, tc1) =>
      ⟨{}, some (errNew "Expected \x27if\x27 keyword for condition, got something else"), tc1⟩
    | (true, tc1) =>
      match parseExpression n tc1 with
      | ⟨_, some e, tc2⟩ =>
        ⟨{}, some (errNew ("Expected expression after \x27if\x27 keyword\n" ++ e.msg)), tc2⟩
      | ⟨expression, none, tc2⟩ =>
        match expect tc2 TOKEN_CURLY_OPEN "\x7b" with
        | (false, tc3) =>
          ⟨{}, some (errNew "Expected \x27\x7b\x27 after condition, got something else"), tc3⟩
        | (true, tc3) =>
          match parseStatementListLoop n [] tc3 with
          | ⟨_, some e, tc4⟩ =>
            ⟨{}, some (errWrap e ", Error while parsing the condition if block"), tc4⟩
          | ⟨statements, none, tc4⟩ =>
            match expect tc4 TOKEN_CURLY_CLOSE "\x7d" with
            | (false, tc5) =>
              ⟨{}, some (errNew "Expected \x27\x7d\x27 after condition block, got something else"), tc5⟩
            | (true, tc5) =>
              match expect tc5 TOKEN_KEYWORD "else" with
              | (false, tc6) => ⟨⟨expression, statements, []⟩, none, tc6⟩
              | (true, tc6) =>
                match expect tc6 TOKEN_CURLY_OPEN "\x7b" with
                | (false, tc7) =>
                  ⟨⟨expression, statements, []⟩,
                    some (errNew "Expected \x27\x7b\x27 after \x27else\x27 in condition, got something else"), tc7⟩
                | (true, tc7) =>
                  match parseStatementListLoop n [] tc7 with
                  | ⟨_, some e, tc8⟩ =>
                    ⟨⟨expression, statements, []⟩,
                      some (errWrap e ", Error while parsing the condition else block"), tc8⟩
                  | ⟨elseStatements, none, tc8⟩ =>
                    match expect tc8 TOKEN_CURLY_CLOSE "\x7d" with
                    | (false, tc9) =>
                      ⟨⟨expression, statements, []⟩,
                        some (errNew "Expected \x27\x7d\x27 after \x27eĺse\x27 block in condition, got something else"), tc9⟩
                    | (true, tc9) =>
                      ⟨⟨expression, statements, elseStatements⟩, none, tc9⟩

/-- `parseLoop` (src lines 808-858): `for`, optional assignment (its error
is deliberately ignored and the zero-value assignment used), `;`,
expression list, `;`, optional assignment, `{`, block, `}`. -/
def parseLoop : Nat → TokenChannel → Res Loop
  | 0, tc => ⟨{}, some fuelErr, tc⟩
  | n+1, tc =>
    match expect tc TOKEN_KEYWORD "for" with
    | (false, tc1) =>
      ⟨{}, some (errNew "Expected \x27for\x27 keyword for loop, got something else"), tc1⟩
    | (true, tc1) =>
      match parseAssignment n tc1 with
      | ⟨assignment, _, tcA⟩ =>
        match expect tcA TOKEN_SEMICOLON ";" with
        | (false, tc2) =>
          ⟨{}, some (errNew "Expected \x27;\x27 after loop assignment, got something else"), tc2⟩
        | (true, tc2) =>
          match parseExpressionListLoop n [] 0 tc2 with
          | ⟨_, some e, tc3⟩ =>
            ⟨{}, some (errNew ("Invalid expression list in loop expression\n" ++ e.msg)), tc3⟩
          | ⟨expressions, none, tc3⟩ =>
            match expect tc3 TOKEN_SEMICOLON ";" with
            | (false, tc4) =>
              ⟨{}, some (errNew "Expected \x27;\x27 after loop expression, got something else"), tc4⟩
            | (true, tc4) =>
              match parseAssignment n tc4 with
              | ⟨incrAssignment, _, tcB⟩ =>
                match expect tcB TOKEN_CURLY_OPEN "\x7b" with
                | (false, tc5) =>
                  ⟨{}, some (errNew "Expected \x27\x7b\x27 after loop header, got something else"), tc5⟩
                | (true, tc5) =>
                  match parseStatementListLoop n [] tc5 with
                  | ⟨_, some e, tc6⟩ =>
                    ⟨{}, some (errWrap e ", Error while parsing the loop block"), tc6⟩
                  | ⟨forBlock, none, tc6⟩ =>
                    match expect tc6 TOKEN_CURLY_CLOSE "\x7d" with
                    | (false, tc7) =>
                      ⟨{}, some (errNew "Expected \x27\x7d\x27 after loop block, got something else"), tc7⟩
                    | (true, tc7) =>
                      ⟨⟨assignment, expressions, incrAssignment, forBlock⟩, none, tc7⟩

/-- The loop of `parseStatementList` (src lines 860-896): try condition,
loop, assignment in order; append and continue on success; return the
error only if it satisfies `errors.Is(·, ErrCritical)`; otherwise a failed
iteration ends the block with no error. -/
def parseStatementListLoop : Nat → List Statement → TokenChannel → Res (List Statement)
  | 0, acc, tc => ⟨acc, none, tc⟩
  | n+1, acc, tc =>
    match parseCondition n tc with
    | ⟨ifStatement, none, tc1⟩ =>
      parseStatementListLoop n
        (acc ++ [Statement.condition ifStatement.expression ifStatement.block ifStatement.elseBlock]) tc1
    | ⟨_, some e1, tc1⟩ =>
      if e1.critical then ⟨acc, some e1, tc1⟩
      else
        match parseLoop n tc1 with
        | ⟨loopStatement, none, tc2⟩ =>
          parseStatementListLoop n
            (acc ++ [Statement.loop loopStatement.assignment loopStatement.expressions
              loopStatement.incrAssignment loopStatement.block]) tc2
        | ⟨_, some e2, tc2⟩ =>
          if e2.critical then ⟨acc, some e2, tc2⟩
          else
            match parseAssignment n tc2 with
            | ⟨assignment, none, tc3⟩ =>
              parseStatementListLoop n (acc ++ [Statement.assignment assignment]) tc3
            | ⟨_, some e3, tc3⟩ =>
              if e3.critical then ⟨acc, some e3, tc3⟩
              else ⟨acc, none, tc3⟩

end

/-- `parseVarList` (src lines 555-571): entry point of the loop. -/
def parseVarList (fuel : Nat) (tc : TokenChannel) : List Variable × TokenChannel :=
  parseVarListLoop fuel [] tc

/-- `parseExpressionList` (src lines 698-723): entry point of the loop,
with `i = 0`. -/
def parseExpressionList (fuel : Nat) (tc : TokenChannel) : Res (List Expression) :=
  parseExpressionListLoop fuel [] 0 tc

/-- `parseStatementList` (src lines 860-896): entry point of the loop. -/
def parseStatementList (fuel : Nat) (tc : TokenChannel) : Res (List Statement) :=
  parseStatementListLoop fuel [] tc

/-- `parse` (src lines 898-912): build a fresh `TokenChannel` over the
lexer's channel and parse the top-level statement list.  The function's
only return value is the `AST`; when `parseStatementList` reports an
error, the zero-value `AST` is returned and the error is dropped (the
line wrapping and propagating it is commented out in the source). -/
def parse (fuel : Nat) (tokens : List Token) : AST :=
  let tokenChan := TokenChannel.fromList tokens
  match parseStatementListLoop fuel [] tokenChan with
  | ⟨_, some _, _⟩ => ⟨[]⟩
  | ⟨block, none, _⟩ => ⟨block⟩

/-- The error-reporting order of `main` (src lines 111-126): after `parse`
returns, `main` polls the lexer error channel (`select` with a `default`
branch); if a lexical error is buffered there it is printed and the
process exits before the parse error is even examined.  The poll is
modelled by its outcome: `lexerErr` is the content of the single-slot
error channel at the moment of the `select`, `parseErr` the parser's
error.  The returned value is the error `main` reports, if any. -/
def mainReportedError (lexerErr : Option String) (parseErr : Option String) : Option String :=
  match lexerErr with
  | some e => some e
  | none => parseErr

/-!
### Spec-side definitions

The following definitions follow the words of the spec (not the source);
they exist to be compared against the source-derived definitions above.
-/

/-- Following the spec's words (section 4.3): the core of the float shape,
`digits '.' digits*`, as a property of the whole text.  Because `'.'` is
not a digit, the digit run before the dot is necessarily the maximal digit
prefix. -/
def floatShapeBody (cs : List Char) : Bool :=
  !(cs.takeWhile Char.isDigit).isEmpty &&
    (match cs.dropWhile Char.isDigit with
     | '.' :: tl => tl.all Char.isDigit
     | _ => false)

/-- Following the spec's words: the float shape `-?digits '.' digits*` as
a property of the whole text. -/
def floatShape (cs : List Char) : Bool :=
  floatShapeBody (stripMinus cs)

/-- Following the spec's words: the int shape `-?digits` as a property of
the whole text. -/
def intShapeBody (cs : List Char) : Bool :=
  !cs.isEmpty && cs.all Char.isDigit

def intShape (cs : List Char) : Bool :=
  intShapeBody (stripMinus cs)

/-- Following the spec's words: the quoted-string shape `'"' ... '"'` as a
property of the whole text; the interior, written `.*` in the source's
pattern, is any run of non-newline characters. -/
def stringShape : List Char → Bool
  | '"' :: rest =>
    (match rest.getLast? with
     | some lastc => lastc == '"' && rest.dropLast.all (fun c => c != '\n')
     | none => false)
  | _ => false

/-- Following the spec's words: the boolean keyword shape `true|false` as
a property of the whole text. -/
def boolShape (c : String) : Bool :=
  c == "true" || c == "false"

/-- The tokens with which an expression can start, read off the first
token each branch of `parseExpression`/`parseUnaryExpression`/
`parseSimpleExpression`/`parseVariable`/`parseConstant` examines:
a unary `-` or `!`, a (possibly `shadow`-qualified) identifier, a
constant, or `(`. -/
def beginsExpressionTok (t : Token) : Bool :=
  (t.tokenType == TOKEN_OPERATOR && (t.value == "-" || t.value == "!")) ||
  (t.tokenType == TOKEN_KEYWORD && t.value == "shadow") ||
  t.tokenType == TOKEN_IDENTIFIER ||
  t.tokenType == TOKEN_CONSTANT ||
  (t.tokenType == TOKEN_PARENTHESIS_OPEN && t.value == "(")

/-- The binary operators of the grammar (src line 163):
`binop ::= '+' | '-' | '*' | '/' | '==' | '!=' | '<=' | '>=' | '<' | '>' | '&&' | '||'`. -/
def binopStrings : List String :=
  ["+", "-", "*", "/", "==", "!=", "<=", ">=", "<", ">", "&&", "||"]

/-!
### Helper lemmas about the token channel and the one-token primitives
-/

/-- A failed `expect` leaves the channel holding the examined token in the
canonical cached form. -/
theorem expect_head_fail (tc : TokenChannel) (t : Token) (ty : TokenType) (v : String)
    (h : tc.toList.head? = some t)
    (hm : (t.tokenType != ty || t.value != v) = true) :
    expect tc ty v = (false, ⟨tc.toList.tail, true, t⟩) := by
  rcases tc with ⟨c, cached, tok⟩
  cases cached
  · cases c with
    | nil => simp [TokenChannel.toList] at h
    | cons x rest =>
      simp only [TokenChannel.toList] at h
      simp at h
      subst h
      simp [expect, TokenChannel.next, TokenChannel.pushBack, TokenChannel.toList, hm]
  · simp only [TokenChannel.toList, if_pos, List.cons_append, List.head?_cons,
      Option.some_inj] at h
    subst h
    simp [expect, TokenChannel.next, TokenChannel.pushBack, TokenChannel.toList, hm]

/-- A failed `expectType` leaves the channel holding the examined token in
the canonical cached form. -/
theorem expectType_head_fail (tc : TokenChannel) (t : Token) (ty : TokenType)
    (h : tc.toList.head? = some t)
    (hm : (t.tokenType != ty) = true) :
    expectType tc ty = ("", false, ⟨tc.toList.tail, true, t⟩) := by
  rcases tc with ⟨c, cached, tok⟩
  cases cached
  · cases c with
    | nil => simp [TokenChannel.toList] at h
    | cons x rest =>
      simp only [TokenChannel.toList] at h
      simp at h
      subst h
      simp [expectType, TokenChannel.next, TokenChannel.pushBack, TokenChannel.toList, hm]
  · simp only [TokenChannel.toList, if_pos, List.cons_append, List.head?_cons,
      Option.some_inj] at h
    subst h
    simp [expectType, TokenChannel.next, TokenChannel.pushBack, TokenChannel.toList, hm]

/-- The canonical cached form delivers its head token like the original
channel: its observable token sequence is the original one. -/
theorem canon_toList (tc : TokenChannel) (t : Token) (h : tc.toList.head? = some t) :
    (TokenChannel.toList ⟨tc.toList.tail, true, t⟩) = tc.toList := by
  rcases hl : tc.toList with _ | ⟨x, rest⟩
  · rw [hl] at h; simp at h
  · rw [hl] at h; simp at h
    simp [TokenChannel.toList, h]

/-!
### Claims about the token channel and the orchestrating caller
-/

/-- C7: `pushBack` stores exactly one token, which is returned by the next
call to `next()` (leaving the observable token sequence as it was);
calling `pushBack` while a token is already buffered signals a usage error
and leaves the channel unchanged — it never silently stores a second
token. -/
theorem pushBack_single_slot (tc : TokenChannel) (t : Token) :
    (tc.isCached = false →
      (tc.pushBack t).2 = false ∧
      ((tc.pushBack t).1).next.1 = t ∧
      (((tc.pushBack t).1).next.2).toList = tc.toList) ∧
    (tc.isCached = true →
      (tc.pushBack t).2 = true ∧ (tc.pushBack t).1 = tc) := by
  rcases tc with ⟨c, cached, tok⟩
  cases cached <;>
    simp [TokenChannel.pushBack, TokenChannel.next, TokenChannel.toList]

theorem pushBack_single_slot_witness :
    (((TokenChannel.fromList [⟨TOKEN_SEMICOLON, ";"⟩]).pushBack ⟨TOKEN_IDENTIFIER, "x"⟩).2 = false ∧
      (((TokenChannel.fromList [⟨TOKEN_SEMICOLON, ";"⟩]).pushBack ⟨TOKEN_IDENTIFIER, "x"⟩).1).next.1 =
        ⟨TOKEN_IDENTIFIER, "x"⟩ ∧
      ((((TokenChannel.fromList [⟨TOKEN_SEMICOLON, ";"⟩]).pushBack ⟨TOKEN_IDENTIFIER, "x"⟩).1).next.2).toList =
        (TokenChannel.fromList [⟨TOKEN_SEMICOLON, ";"⟩]).toList) ∧
    (((⟨[], true, ⟨TOKEN_SEMICOLON, ";"⟩⟩ : TokenChannel).pushBack ⟨TOKEN_IDENTIFIER, "x"⟩).2 = true ∧
      ((⟨[], true, ⟨TOKEN_SEMICOLON, ";"⟩⟩ : TokenChannel).pushBack ⟨TOKEN_IDENTIFIER, "x"⟩).1 =
        ⟨[], true, ⟨TOKEN_SEMICOLON, ";"⟩⟩) :=
  ⟨(pushBack_single_slot (TokenChannel.fromList [⟨TOKEN_SEMICOLON, ";"⟩]) ⟨TOKEN_IDENTIFIER, "x"⟩).1 rfl,
   (pushBack_single_slot ⟨[], true, ⟨TOKEN_SEMICOLON, ";"⟩⟩ ⟨TOKEN_IDENTIFIER, "x"⟩).2 rfl⟩

/-- C8: on an exhausted stream (the lexer closed its channel and no token
is buffered), `next()` immediately returns the designated end-of-input
token — Go's zero-value `Token` — and leaves the channel in the same
state, so every further call returns the same token again. -/
theorem next_exhausted (tc : TokenChannel)
    (h1 : tc.isCached = false) (h2 : tc.c = []) :
    tc.next = (zeroToken, tc) := by
  rcases tc with ⟨c, cached, tok⟩
  cases h1
  cases h2
  simp [TokenChannel.next]

theorem next_exhausted_witness :
    (TokenChannel.fromList []).next = (zeroToken, TokenChannel.fromList []) :=
  next_exhausted (TokenChannel.fromList []) rfl rfl

/-- C5: when a lexical error sits in the notification channel at the time
`main` polls it (after parsing has finished), `main` reports that lexical
error, whatever the parse error was — the parse error is not examined. -/
theorem lexerError_is_authoritative (le : String) (pe : Option String) :
    mainReportedError (some le) pe = some le := rfl

/-- A successful `expect` consumes exactly the head token. -/
theorem expect_head_succ (tc : TokenChannel) (t : Token) (ty : TokenType) (v : String)
    (h : tc.toList.head? = some t)
    (hm : (t.tokenType != ty || t.value != v) = false) :
    expect tc ty v = (true, ⟨tc.toList.tail, false, tc.token⟩) := by
  rcases tc with ⟨c, cached, tok⟩
  cases cached
  · cases c with
    | nil => simp [TokenChannel.toList] at h
    | cons x rest =>
      simp only [TokenChannel.toList] at h
      simp at h
      subst h
      simp [expect, TokenChannel.next, TokenChannel.toList, hm]
  · simp only [TokenChannel.toList] at h
    simp at h
    subst h
    simp [expect, TokenChannel.next, TokenChannel.toList, hm]

/-- A successful `expectType` consumes exactly the head token. -/
theorem expectType_head_succ (tc : TokenChannel) (t : Token) (ty : TokenType)
    (h : tc.toList.head? = some t)
    (hm : (t.tokenType != ty) = false) :
    expectType tc ty = (t.value, true, ⟨tc.toList.tail, false, tc.token⟩) := by
  rcases tc with ⟨c, cached, tok⟩
  cases cached
  · cases c with
    | nil => simp [TokenChannel.toList] at h
    | cons x rest =>
      simp only [TokenChannel.toList] at h
      simp at h
      subst h
      simp [expectType, TokenChannel.next, TokenChannel.toList, hm]
  · simp only [TokenChannel.toList] at h
    simp at h
    subst h
    simp [expectType, TokenChannel.next, TokenChannel.toList, hm]

/-!
### Claim C3: pushback on failed matches
-/

/-- C3 counterexample: `parseVariable` on `shadow ;` fails, yet the
consumed `shadow` keyword is gone from the stream — the failed match did
not push every consumed token back. -/
theorem parseVariable_consumes_on_failure :
    (parseVariable (TokenChannel.fromList
      [⟨TOKEN_KEYWORD, "shadow"⟩, ⟨TOKEN_SEMICOLON, ";"⟩])).2.1 = false ∧
    ((parseVariable (TokenChannel.fromList
      [⟨TOKEN_KEYWORD, "shadow"⟩, ⟨TOKEN_SEMICOLON, ";"⟩])).2.2).toList ≠
      (TokenChannel.fromList [⟨TOKEN_KEYWORD, "shadow"⟩, ⟨TOKEN_SEMICOLON, ";"⟩]).toList := by
  decide

/-- C3 amended: the single-token primitives `expect` and `expectType` push
the one token they examined back on a failed match, leaving the stream's
token sequence unchanged; consequently a production that fails at its
first token — such as `parseCondition` when the stream does not start with
the `if` keyword — returns its mismatch error with the stream unchanged.
Productions that consume more than one token before failing do not restore
the stream (see the counterexample). -/
theorem failed_single_token_match_restores_stream :
    (∀ (tc : TokenChannel) (ty : TokenType) (v : String), tc.toList ≠ [] →
      ((expect tc ty v).1 = false → ((expect tc ty v).2).toList = tc.toList) ∧
      ((expectType tc ty).2.1 = false → ((expectType tc ty).2.2).toList = tc.toList)) ∧
    (∀ (n : Nat) (tc : TokenChannel) (t : Token), tc.toList.head? = some t →
      ((t.tokenType == TOKEN_KEYWORD) && (t.value == "if")) = false →
      (parseCondition (n + 1) tc).err.isSome = true ∧
      ((parseCondition (n + 1) tc).tc).toList = tc.toList) := by
  constructor
  · intro tc ty v hne
    obtain ⟨x, ht⟩ : ∃ y, tc.toList.head? = some y := by
      cases htl : tc.toList with
      | nil => exact absurd htl hne
      | cons a l => exact ⟨a, rfl⟩
    constructor
    · intro hf
      by_cases hcond : (x.tokenType != ty || x.value != v) = true
      · rw [expect_head_fail tc x ty v ht hcond]
        exact canon_toList tc x ht
      · rw [Bool.not_eq_true] at hcond
        rw [expect_head_succ tc x ty v ht hcond] at hf
        simp at hf
    · intro hf
      by_cases hcond : (x.tokenType != ty) = true
      · rw [expectType_head_fail tc x ty ht hcond]
        exact canon_toList tc x ht
      · rw [Bool.not_eq_true] at hcond
        rw [expectType_head_succ tc x ty ht hcond] at hf
        simp at hf
  · intro n tc t ht hb
    have hm : (t.tokenType != TOKEN_KEYWORD || t.value != "if") = true := by
      rcases Bool.and_eq_false_iff.mp hb with h | h <;> simp [bne, h]
    have hx := expect_head_fail tc t TOKEN_KEYWORD "if" ht hm
    simp only [parseCondition, hx]
    exact ⟨rfl, canon_toList tc t ht⟩

theorem failed_single_token_match_restores_stream_witness :
    (((expect (TokenChannel.fromList [⟨TOKEN_SEMICOLON, ";"⟩]) TOKEN_KEYWORD "if").2).toList =
      (TokenChannel.fromList [⟨TOKEN_SEMICOLON, ";"⟩]).toList) ∧
    ((parseCondition 6 (TokenChannel.fromList [⟨TOKEN_SEMICOLON, ";"⟩])).err.isSome = true ∧
      ((parseCondition 6 (TokenChannel.fromList [⟨TOKEN_SEMICOLON, ";"⟩])).tc).toList =
        (TokenChannel.fromList [⟨TOKEN_SEMICOLON, ";"⟩]).toList) :=
  ⟨((failed_single_token_match_restores_stream.1
      (TokenChannel.fromList [⟨TOKEN_SEMICOLON, ";"⟩]) TOKEN_KEYWORD "if" (by decide)).1 rfl),
   (failed_single_token_match_restores_stream.2 5
      (TokenChannel.fromList [⟨TOKEN_SEMICOLON, ";"⟩]) ⟨TOKEN_SEMICOLON, ";"⟩ rfl (by decide))⟩

/-!
### Claim C2: assignment target/value counts
-/

/-- C2 counterexample: `a, b = 1` is accepted by `parseAssignment` with two
target variables but a single value expression — the parser never compares
the two lengths. -/
theorem assignment_length_mismatch_accepted :
    (parseAssignment 20 (TokenChannel.fromList
      [⟨TOKEN_IDENTIFIER, "a"⟩, ⟨TOKEN_SEPARATOR, ","⟩, ⟨TOKEN_IDENTIFIER, "b"⟩,
       ⟨TOKEN_ASSIGNMENT, "="⟩, ⟨TOKEN_CONSTANT, "1"⟩])).err = none ∧
    (parseAssignment 20 (TokenChannel.fromList
      [⟨TOKEN_IDENTIFIER, "a"⟩, ⟨TOKEN_SEPARATOR, ","⟩, ⟨TOKEN_IDENTIFIER, "b"⟩,
       ⟨TOKEN_ASSIGNMENT, "="⟩, ⟨TOKEN_CONSTANT, "1"⟩])).val.variables.length = 2 ∧
    (parseAssignment 20 (TokenChannel.fromList
      [⟨TOKEN_IDENTIFIER, "a"⟩, ⟨TOKEN_SEPARATOR, ","⟩, ⟨TOKEN_IDENTIFIER, "b"⟩,
       ⟨TOKEN_ASSIGNMENT, "="⟩, ⟨TOKEN_CONSTANT, "1"⟩])).val.expressions.length = 1 :=
  ⟨rfl, rfl, rfl⟩

/-- C2 amended: an accepted `parseAssignment` guarantees only that the
target list is nonempty; the number of value expressions is unconstrained
(it may differ from the number of targets, and may even be zero).  The
empty "absent" assignment of loop headers is not accepted by
`parseAssignment` — it arises because `parseLoop` ignores
`parseAssignment`'s error and keeps the zero-value assignment, as the
second conjunct shows on `for ; ; \x7b \x7d`. -/
theorem parseAssignment_targets_nonempty :
    (∀ (fuel : Nat) (tc : TokenChannel),
      (parseAssignment fuel tc).err = none →
      (parseAssignment fuel tc).val.variables ≠ []) ∧
    ((parseLoop 30 (TokenChannel.fromList
        [⟨TOKEN_KEYWORD, "for"⟩, ⟨TOKEN_SEMICOLON, ";"⟩, ⟨TOKEN_SEMICOLON, ";"⟩,
         ⟨TOKEN_CURLY_OPEN, "\x7b"⟩, ⟨TOKEN_CURLY_CLOSE, "\x7d"⟩])).err = none ∧
      (parseLoop 30 (TokenChannel.fromList
        [⟨TOKEN_KEYWORD, "for"⟩, ⟨TOKEN_SEMICOLON, ";"⟩, ⟨TOKEN_SEMICOLON, ";"⟩,
         ⟨TOKEN_CURLY_OPEN, "\x7b"⟩, ⟨TOKEN_CURLY_CLOSE, "\x7d"⟩])).val.assignment = ⟨[], []⟩ ∧
      (parseLoop 30 (TokenChannel.fromList
        [⟨TOKEN_KEYWORD, "for"⟩, ⟨TOKEN_SEMICOLON, ";"⟩, ⟨TOKEN_SEMICOLON, ";"⟩,
         ⟨TOKEN_CURLY_OPEN, "\x7b"⟩, ⟨TOKEN_CURLY_CLOSE, "\x7d"⟩])).val.incrAssignment = ⟨[], []⟩) := by
  constructor
  · intro fuel tc
    match fuel with
    | 0 => intro h; simp [parseAssignment] at h
    | n + 1 =>
      simp only [parseAssignment]
      split
      · intro h; simp at h
      · next hlen =>
        split
        · intro h; simp at h
        · split
          · intro h; simp at h
          · intro _ hv
            simp only at hv
            rw [hv] at hlen
            simp at hlen
  · exact ⟨rfl, rfl, rfl⟩

theorem parseAssignment_targets_nonempty_witness :
    (parseAssignment 20 (TokenChannel.fromList
      [⟨TOKEN_IDENTIFIER, "a"⟩, ⟨TOKEN_ASSIGNMENT, "="⟩,
       ⟨TOKEN_CONSTANT, "1"⟩])).val.variables ≠ [] :=
  parseAssignment_targets_nonempty.1 20
    (TokenChannel.fromList
      [⟨TOKEN_IDENTIFIER, "a"⟩, ⟨TOKEN_ASSIGNMENT, "="⟩, ⟨TOKEN_CONSTANT, "1"⟩]) rfl

/-!
### Claim C1: right nesting of binary-operator chains
-/

set_option maxHeartbeats 2000000 in
set_option linter.unusedVariables false in
/-- C1: for every pair of binary operators of the grammar and every
parenthesis-free operand chain `a OP1 b OP2 c`, the parsed tree is the
strictly right-nested `a OP1 (b OP2 c)` — no precedence or associativity
distinction between any two operators.  (The proof is a single evaluation:
the parser never inspects the value of an operator token in these
positions, so the membership hypotheses delimit the claim's scope without
being needed.) -/
theorem binop_chain_right_nested (op1 op2 : String)
    (h1 : op1 ∈ binopStrings) (h2 : op2 ∈ binopStrings) (a b c : String) :
    (parseExpression 10 (TokenChannel.fromList
      [⟨TOKEN_IDENTIFIER, a⟩, ⟨TOKEN_OPERATOR, op1⟩, ⟨TOKEN_IDENTIFIER, b⟩,
       ⟨TOKEN_OPERATOR, op2⟩, ⟨TOKEN_IDENTIFIER, c⟩])).val =
    some (Expression.binaryOp (getOperatorType op1)
      (Expression.var ⟨TYPE_UNKNOWN, a, false⟩)
      (Expression.binaryOp (getOperatorType op2)
        (Expression.var ⟨TYPE_UNKNOWN, b, false⟩)
        (Expression.var ⟨TYPE_UNKNOWN, c, false⟩) TYPE_UNKNOWN) TYPE_UNKNOWN) := rfl

theorem binop_chain_right_nested_witness :
    (parseExpression 10 (TokenChannel.fromList
      [⟨TOKEN_IDENTIFIER, "a"⟩, ⟨TOKEN_OPERATOR, "+"⟩, ⟨TOKEN_IDENTIFIER, "b"⟩,
       ⟨TOKEN_OPERATOR, "*"⟩, ⟨TOKEN_IDENTIFIER, "c"⟩])).val =
    some (Expression.binaryOp OP_PLUS
      (Expression.var ⟨TYPE_UNKNOWN, "a", false⟩)
      (Expression.binaryOp OP_MULT
        (Expression.var ⟨TYPE_UNKNOWN, "b", false⟩)
        (Expression.var ⟨TYPE_UNKNOWN, "c", false⟩) TYPE_UNKNOWN) TYPE_UNKNOWN) :=
  binop_chain_right_nested "+" "*" (by decide) (by decide) "a" "b" "c"

/-!
### Claims C9 and C4: no critical errors, and `parse` drops errors
-/

set_option maxHeartbeats 4000000 in
/-- Every error the three statement-level productions return is
non-critical (each is created by `errors.New`, or by `%w`-wrapping an
error of `parseStatementList`, which — simultaneously — never returns an
error at all: its only error returns are guarded by
`errors.Is(err, ErrCritical)`). -/
theorem parser_errors_noncritical : ∀ fuel : Nat,
    (∀ tc, ((parseAssignment fuel tc).err.all fun e => !e.critical) = true) ∧
    (∀ tc, ((parseCondition fuel tc).err.all fun e => !e.critical) = true) ∧
    (∀ tc, ((parseLoop fuel tc).err.all fun e => !e.critical) = true) ∧
    (∀ acc tc, (parseStatementListLoop fuel acc tc).err = none) := by
  intro fuel
  induction fuel with
  | zero => refine ⟨?_, ?_, ?_, ?_⟩ <;> intros <;> rfl
  | succ n ih =>
    obtain ⟨ihA, ihC, ihL, ihSL⟩ := ih
    refine ⟨?_, ?_, ?_, ?_⟩
    · intro tc
      simp only [parseAssignment]
      repeat' split
      all_goals rfl
    · intro tc
      simp only [parseCondition]
      repeat' split
      all_goals first
        | rfl
        | (rename_i heq
           have h3 := congrArg Res.err heq
           rw [ihSL] at h3
           simp at h3)
    · intro tc
      simp only [parseLoop]
      repeat' split
      all_goals first
        | rfl
        | (rename_i heq
           have h3 := congrArg Res.err heq
           rw [ihSL] at h3
           simp at h3)
    · intro acc tc
      simp only [parseStatementListLoop]
      split
      · exact ihSL _ _
      · rename_i val1 e1 tc1 heq1
        have hC := ihC tc
        rw [heq1] at hC
        simp at hC
        rw [hC]
        simp only [Bool.false_eq_true, if_false]
        split
        · exact ihSL _ _
        · rename_i val2 e2 tc2 heq2
          have hL := ihL tc1
          rw [heq2] at hL
          simp at hL
          rw [hL]
          simp only [Bool.false_eq_true, if_false]
          split
          · exact ihSL _ _
          · rename_i val3 e3 tc3 heq3
            have hA := ihA tc2
            rw [heq3] at hA
            simp at hA
            rw [hA]
            simp

/-- C9: no parser production ever returns a critical error (nothing wraps
`ErrCritical`), so `parseStatementList` returns without error on every
token stream, treating the first statement-level failure as the end of the
block; consequently `parse` accepts input with trailing malformed text,
silently omitting everything from the first unparsable statement on — here
`a = 1 \x7d =` parses to an AST holding only the assignment. -/
theorem no_critical_errors_statement_list_total :
    (∀ (fuel : Nat) (tc : TokenChannel),
      ((parseCondition fuel tc).err.all fun e => !e.critical) = true) ∧
    (∀ (fuel : Nat) (tc : TokenChannel),
      ((parseLoop fuel tc).err.all fun e => !e.critical) = true) ∧
    (∀ (fuel : Nat) (tc : TokenChannel),
      ((parseAssignment fuel tc).err.all fun e => !e.critical) = true) ∧
    (∀ (fuel : Nat) (tc : TokenChannel), (parseStatementList fuel tc).err = none) ∧
    parse 40 [⟨TOKEN_IDENTIFIER, "a"⟩, ⟨TOKEN_ASSIGNMENT, "="⟩, ⟨TOKEN_CONSTANT, "1"⟩,
        ⟨TOKEN_CURLY_CLOSE, "\x7d"⟩, ⟨TOKEN_ASSIGNMENT, "="⟩] =
      ⟨[Statement.assignment ⟨[⟨TYPE_UNKNOWN, "a", false⟩],
          [Expression.const ⟨TYPE_INT, "1"⟩]⟩]⟩ := by
  refine ⟨?_, ?_, ?_, ?_, ?_⟩
  · intro fuel tc; exact (parser_errors_noncritical fuel).2.1 tc
  · intro fuel tc; exact (parser_errors_noncritical fuel).2.2.1 tc
  · intro fuel tc; exact (parser_errors_noncritical fuel).1 tc
  · intro fuel tc; exact (parser_errors_noncritical fuel).2.2.2 [] tc
  · rfl

/-- C4: the cited `parse` has no error return value at all — it yields a
bare `AST` and drops any error `parseStatementList` reports (the
propagation line is commented out in the source), so it is always the
statement list's value that comes back, never an error; in particular on
`if` alone the inner `parseCondition` fails with an error, yet `parse`
returns an empty AST with nothing for the caller to inspect. -/
theorem parse_discards_statement_list_error :
    (∀ (fuel : Nat) (ts : List Token),
      parse fuel ts = ⟨(parseStatementList fuel (TokenChannel.fromList ts)).val⟩) ∧
    (parseCondition 29 (TokenChannel.fromList [⟨TOKEN_KEYWORD, "if"⟩])).err.isSome = true ∧
    parse 30 [⟨TOKEN_KEYWORD, "if"⟩] = ⟨[]⟩ := by
  refine ⟨?_, rfl, rfl⟩
  intro fuel ts
  have h := (parser_errors_noncritical fuel).2.2.2 [] (TokenChannel.fromList ts)
  simp only [parse, parseStatementList]
  rcases hr : parseStatementListLoop fuel [] (TokenChannel.fromList ts) with ⟨vals, errO, tcf⟩
  rw [hr] at h
  simp at h
  subst h
  simp

/-!
### Claim C10: expression lists on streams that do not start an expression
-/

/-- The canonical cached channel delivers its stored token first. -/
theorem cached_toList (l : List Token) (t : Token) :
    (TokenChannel.toList ⟨l, true, t⟩) = t :: l := rfl

/-- On a stream whose next token cannot begin an expression,
`parseUnaryExpression` fails with no expression, and the stream's token
sequence is unchanged. -/
theorem parseUnaryExpression_nonbeginner (n : Nat) (tc : TokenChannel) (t : Token)
    (h : tc.toList.head? = some t) (hb : beginsExpressionTok t = false) :
    (parseUnaryExpression n tc).val = none ∧
    (parseUnaryExpression n tc).err.isSome = true ∧
    ((parseUnaryExpression n tc).tc).toList = tc.toList := by
  match n with
  | 0 => exact ⟨rfl, rfl, rfl⟩
  | n + 1 =>
    simp only [beginsExpressionTok, Bool.or_eq_false_iff] at hb
    obtain ⟨⟨⟨⟨hA, hB⟩, hC⟩, hD⟩, hE⟩ := hb
    have hm1 : (t.tokenType != TOKEN_OPERATOR || t.value != "-") = true := by
      rcases Bool.and_eq_false_iff.mp hA with h1 | h1
      · simp [bne, h1]
      · rcases Bool.or_eq_false_iff.mp h1 with ⟨h2, _⟩
        simp [bne, h2]
    have hm2 : (t.tokenType != TOKEN_OPERATOR || t.value != "!") = true := by
      rcases Bool.and_eq_false_iff.mp hA with h1 | h1
      · simp [bne, h1]
      · rcases Bool.or_eq_false_iff.mp h1 with ⟨_, h2⟩
        simp [bne, h2]
    have cu : (TokenChannel.toList ⟨tc.toList.tail, true, t⟩) = t :: tc.toList.tail :=
      cached_toList _ _
    have hu2 : (TokenChannel.toList ⟨tc.toList.tail, true, t⟩).head? = some t := by
      rw [cu]; rfl
    have e1 := expect_head_fail tc t TOKEN_OPERATOR "-" h hm1
    have e2 := expect_head_fail ⟨tc.toList.tail, true, t⟩ t TOKEN_OPERATOR "!" hu2 hm2
    rw [cu] at e2
    simp only [List.tail_cons] at e2
    simp only [parseUnaryExpression, e1, e2]
    exact ⟨by trivial, by trivial, canon_toList tc t h⟩

set_option maxHeartbeats 1000000 in
/-- On a stream whose next token cannot begin an expression,
`parseSimpleExpression` fails with no expression, and the stream's token
sequence is unchanged. -/
theorem parseSimpleExpression_nonbeginner (n : Nat) (tc : TokenChannel) (t : Token)
    (h : tc.toList.head? = some t) (hb : beginsExpressionTok t = false) :
    (parseSimpleExpression n tc).val = none ∧
    (parseSimpleExpression n tc).err.isSome = true ∧
    ((parseSimpleExpression n tc).tc).toList = tc.toList := by
  match n with
  | 0 => exact ⟨rfl, rfl, rfl⟩
  | n + 1 =>
    simp only [beginsExpressionTok, Bool.or_eq_false_iff] at hb
    obtain ⟨⟨⟨⟨hA, hB⟩, hC⟩, hD⟩, hE⟩ := hb
    have hm3 : (t.tokenType != TOKEN_KEYWORD || t.value != "shadow") = true := by
      rcases Bool.and_eq_false_iff.mp hB with h1 | h1 <;> simp [bne, h1]
    have hm4 : (t.tokenType != TOKEN_IDENTIFIER) = true := by
      simp [bne, hC]
    have hm5 : (t.tokenType != TOKEN_CONSTANT) = true := by
      simp [bne, hD]
    have hm6 : (t.tokenType != TOKEN_PARENTHESIS_OPEN || t.value != "(") = true := by
      rcases Bool.and_eq_false_iff.mp hE with h1 | h1 <;> simp [bne, h1]
    have cu : (TokenChannel.toList ⟨tc.toList.tail, true, t⟩) = t :: tc.toList.tail :=
      cached_toList _ _
    have hu2 : (TokenChannel.toList ⟨tc.toList.tail, true, t⟩).head? = some t := by
      rw [cu]; rfl
    have e1 := expect_head_fail tc t TOKEN_KEYWORD "shadow" h hm3
    have e2 := expectType_head_fail ⟨tc.toList.tail, true, t⟩ t TOKEN_IDENTIFIER hu2 hm4
    rw [cu] at e2
    simp only [List.tail_cons] at e2
    have e3 := expectType_head_fail ⟨tc.toList.tail, true, t⟩ t TOKEN_CONSTANT hu2 hm5
    rw [cu] at e3
    simp only [List.tail_cons] at e3
    have e4 := expect_head_fail ⟨tc.toList.tail, true, t⟩ t TOKEN_PARENTHESIS_OPEN "(" hu2 hm6
    rw [cu] at e4
    simp only [List.tail_cons] at e4
    simp only [parseSimpleExpression, parseVariable, parseConstant, e1, e2, e3, e4]
    exact ⟨by trivial, by trivial, canon_toList tc t h⟩

/-- On a stream whose next token cannot begin an expression,
`parseExpression` fails with no expression, and the stream's token
sequence is unchanged. -/
theorem parseExpression_nonbeginner (n : Nat) (tc : TokenChannel) (t : Token)
    (h : tc.toList.head? = some t) (hb : beginsExpressionTok t = false) :
    (parseExpression n tc).val = none ∧
    (parseExpression n tc).err.isSome = true ∧
    ((parseExpression n tc).tc).toList = tc.toList := by
  match n with
  | 0 => exact ⟨rfl, rfl, rfl⟩
  | n + 1 =>
    obtain ⟨hv, he, ht⟩ := parseUnaryExpression_nonbeginner n tc t h hb
    rcases hu : parseUnaryExpression n tc with ⟨uval, uerr, tc1⟩
    rw [hu] at hv he ht
    simp only at hv he ht
    rcases uerr with _ | e
    · simp at he
    · have ht1 : tc1.toList.head? = some t := by rw [ht]; exact h
      obtain ⟨sv, se, st⟩ := parseSimpleExpression_nonbeginner n tc1 t ht1 hb
      rcases hs : parseSimpleExpression n tc1 with ⟨sval, serr, tc2⟩
      rw [hs] at sv se st
      simp only at sv se st
      rcases serr with _ | e2
      · simp at se
      · simp only [parseExpression, hu, hs]
        exact ⟨by trivial, by trivial, st.trans ht⟩

/-- C10: if the next token of the stream cannot begin an expression,
`parseExpressionList` succeeds with the empty list and no error, leaving
the stream's token sequence unchanged; and whenever it does return an
error, that error is exactly the after-comma error (a `,` was consumed and
no expression followed), with the expression list reset to nil. -/
theorem parseExpressionList_empty_or_comma_error :
    (∀ (fuel : Nat) (tc : TokenChannel) (t : Token),
      tc.toList.head? = some t → beginsExpressionTok t = false →
      (parseExpressionList fuel tc).val = [] ∧
      (parseExpressionList fuel tc).err = none ∧
      ((parseExpressionList fuel tc).tc).toList = tc.toList) ∧
    (∀ (fuel : Nat) (acc : List Expression) (i : Nat) (tc : TokenChannel) (e : PError),
      (parseExpressionListLoop fuel acc i tc).err = some e →
      e = errNew exprListAfterCommaMsg ∧
      (parseExpressionListLoop fuel acc i tc).val = []) := by
  constructor
  · intro fuel tc t h hb
    match fuel with
    | 0 => exact ⟨rfl, rfl, rfl⟩
    | n + 1 =>
      obtain ⟨hv, he, ht⟩ := parseExpression_nonbeginner n tc t h hb
      rcases hp : parseExpression n tc with ⟨v, errO, tc1⟩
      rw [hp] at hv he ht
      simp only at hv he ht
      rcases errO with _ | e
      · simp at he
      · simp only [parseExpressionList, parseExpressionListLoop, hp]
        exact ⟨by trivial, by trivial, ht⟩
  · intro fuel
    induction fuel with
    | zero =>
      intro acc i tc e h
      simp [parseExpressionListLoop] at h
    | succ n ih =>
      intro acc i tc e h
      rcases hr : parseExpressionListLoop (n + 1) acc i tc with ⟨vals, errO, tcf⟩
      rw [hr] at h
      simp only at h
      subst h
      simp only [parseExpressionListLoop] at hr
      split at hr
      · split at hr
        · simp at hr
        · simp only [Res.mk.injEq] at hr
          obtain ⟨h1, h2, _⟩ := hr
          simp at h2
          exact ⟨h2.symm, h1.symm⟩
      · split at hr
        · simp at hr
        · have hih := ih _ _ _ e (by rw [hr])
          refine ⟨hih.1, ?_⟩
          have h2 := hih.2
          rw [hr] at h2
          simpa using h2

theorem parseExpressionList_empty_or_comma_error_witness :
    ((parseExpressionList 10 (TokenChannel.fromList [⟨TOKEN_SEMICOLON, ";"⟩])).val = [] ∧
      (parseExpressionList 10 (TokenChannel.fromList [⟨TOKEN_SEMICOLON, ";"⟩])).err = none ∧
      ((parseExpressionList 10 (TokenChannel.fromList [⟨TOKEN_SEMICOLON, ";"⟩])).tc).toList =
        (TokenChannel.fromList [⟨TOKEN_SEMICOLON, ";"⟩]).toList) ∧
    (parseExpressionListLoop 15 [] 0 (TokenChannel.fromList
      [⟨TOKEN_CONSTANT, "1"⟩, ⟨TOKEN_SEPARATOR, ","⟩, ⟨TOKEN_SEMICOLON, ";"⟩])).val = [] :=
  ⟨parseExpressionList_empty_or_comma_error.1 10
      (TokenChannel.fromList [⟨TOKEN_SEMICOLON, ";"⟩]) ⟨TOKEN_SEMICOLON, ";"⟩ rfl rfl,
   (parseExpressionList_empty_or_comma_error.2 15 [] 0
      (TokenChannel.fromList
        [⟨TOKEN_CONSTANT, "1"⟩, ⟨TOKEN_SEPARATOR, ","⟩, ⟨TOKEN_SEMICOLON, ";"⟩])
      (errNew exprListAfterCommaMsg) rfl).2⟩

/-!
### Claim C6: literal-shape classification
-/

/-- C6 counterexample: the text `1x` matches none of the four shapes of
the claim as shapes of the whole text, yet `getConstType` classifies it as
`TYPE_INT`, not `TYPE_UNKNOWN` — the source patterns are anchored only at
the start, so a matching prefix suffices. -/
theorem getConstType_counterexample :
    floatShape "1x".data = false ∧ intShape "1x".data = false ∧
    stringShape "1x".data = false ∧ boolShape "1x" = false ∧
    getConstType "1x" = TYPE_INT := by
  decide

/-- A nonempty run of digits followed by a dot satisfies `digitsDot`. -/
theorem digitsDot_append (ds tl : List Char) (hne : ds ≠ [])
    (hall : ds.all Char.isDigit = true) :
    digitsDot (ds ++ '.' :: tl) = true := by
  induction ds with
  | nil => exact absurd rfl hne
  | cons d ds' ih =>
    simp only [List.all_cons, Bool.and_eq_true] at hall
    obtain ⟨hd, hall'⟩ := hall
    cases ds' with
    | nil => simp [digitsDot, hd]
    | cons e ds'' =>
      have h2 : digitsDot ((e :: ds'') ++ '.' :: tl) = true := ih (by simp) hall'
      simp only [List.cons_append, digitsDot, hd, Bool.true_and, List.append_eq] at h2 ⊢
      rw [h2]
      simp

/-- A list of digits only never satisfies `digitsDot` (no dot occurs). -/
theorem digitsDot_all_digits (cs : List Char) (h : cs.all Char.isDigit = true) :
    digitsDot cs = false := by
  induction cs with
  | nil => rfl
  | cons c rest ih =>
    simp only [List.all_cons, Bool.and_eq_true] at h
    obtain ⟨hc, hrest⟩ := h
    cases rest with
    | nil => rfl
    | cons d rest2 =>
      have hd : d.isDigit = true := by
        simp only [List.all_cons, Bool.and_eq_true] at hrest
        exact hrest.1
      have hdot : (d == '.') = false := by
        cases hdd : d == '.'
        · rfl
        · have hdp : d = '.' := by simpa using hdd
          rw [hdp] at hd
          exact absurd hd (by decide)
      have ihd := ih hrest
      simp [digitsDot, hdot, ihd]

/-- `digitsDot` fails immediately on a non-digit head. -/
theorem digitsDot_not_digit (c : Char) (rest : List Char) (h : c.isDigit = false) :
    digitsDot (c :: rest) = false := by
  cases rest <;> simp [digitsDot, h]

/-- A full float shape implies the start-anchored float pattern matches. -/
theorem digitsDot_of_body (cs : List Char) (h : floatShapeBody cs = true) :
    digitsDot cs = true := by
  unfold floatShapeBody at h
  rw [Bool.and_eq_true] at h
  obtain ⟨h1, h2⟩ := h
  split at h2
  · next tl heq =>
    have hsplit : cs.takeWhile Char.isDigit ++ '.' :: tl = cs := by
      rw [← heq]
      exact List.takeWhile_append_dropWhile _ _
    have hne : cs.takeWhile Char.isDigit ≠ [] := by
      intro hempty
      rw [hempty] at h1
      simp at h1
    have hall : (cs.takeWhile Char.isDigit).all Char.isDigit = true := by
      rw [List.all_eq_true]
      intro a ha
      exact List.mem_takeWhile_imp ha
    rw [← hsplit]
    exact digitsDot_append _ _ hne hall
  · simp at h2

/-- In a newline-free list ending in a quote, the start-anchored string
pattern finds its closing quote. -/
theorem takeWhile_contains_quote (mid : List Char)
    (h : mid.all (fun c => c != '\n') = true) :
    (((mid ++ ['"']).takeWhile fun c => c != '\n').contains '"') = true := by
  induction mid with
  | nil => rfl
  | cons m mid' ih =>
    simp only [List.all_cons, Bool.and_eq_true] at h
    obtain ⟨hm, h'⟩ := h
    simp only [List.cons_append, List.takeWhile_cons, hm, if_true]
    rw [List.contains_cons, ih h']
    simp

/-- C6 amended: `getConstType` tries the four patterns in the claimed
order — float, int, string, bool — but each is anchored only at the start
of the text, so the first pattern matching a prefix decides the type.  In
particular a whole-text match of a shape is classified as that shape's
type, and a text with no matching prefix at all is `TYPE_UNKNOWN`; but a
text like `1x` whose proper prefix matches a pattern is not `Unknown` (see
the counterexample). -/
theorem getConstType_prefix_anchored (c : String) :
    (floatShape c.data = true → getConstType c = TYPE_FLOAT) ∧
    (intShape c.data = true → getConstType c = TYPE_INT) ∧
    (stringShape c.data = true → getConstType c = TYPE_STRING) ∧
    ((c = "true" ∨ c = "false") → getConstType c = TYPE_BOOL) ∧
    ((floatLead c.data || intLead c.data || stringLead c.data || boolLead c.data) = false →
      getConstType c = TYPE_UNKNOWN) := by
  refine ⟨?_, ?_, ?_, ?_, ?_⟩
  · intro h
    have hf : floatLead c.data = true := by
      unfold floatLead
      exact digitsDot_of_body _ (by simpa [floatShape] using h)
    simp [getConstType, hf]
  · intro h
    unfold intShape intShapeBody at h
    rw [Bool.and_eq_true] at h
    obtain ⟨hne, hall⟩ := h
    have hfl : floatLead c.data = false := by
      unfold floatLead
      exact digitsDot_all_digits _ hall
    have hil : intLead c.data = true := by
      unfold intLead
      rcases hsm : stripMinus c.data with _ | ⟨x, xs⟩
      · rw [hsm] at hne
        simp at hne
      · rw [hsm] at hall
        simp only [List.all_cons, Bool.and_eq_true] at hall
        simp [hall.1]
    simp [getConstType, hfl, hil]
  · intro h
    unfold stringShape at h
    split at h
    · next rest heqData =>
      split at h
      · next lastc heqLast =>
        rw [Bool.and_eq_true] at h
        obtain ⟨hq, hmid⟩ := h
        have hlast : lastc = '"' := by simpa using hq
        subst hlast
        have hsplit : rest.dropLast ++ ['"'] = rest :=
          List.dropLast_append_getLast? '"' (by rw [Option.mem_def, heqLast])
        have hfl : floatLead c.data = false := by
          rw [heqData]
          exact digitsDot_not_digit '"' rest (by decide)
        have hil : intLead c.data = false := by
          rw [heqData]
          rfl
        have hsl : stringLead c.data = true := by
          rw [heqData]
          show ((rest.takeWhile fun ch => ch != '\n').contains '"') = true
          rw [← hsplit]
          exact takeWhile_contains_quote _ hmid
        simp [getConstType, hfl, hil, hsl]
      · simp at h
    · simp at h
  · intro h
    rcases h with rfl | rfl <;> decide
  · intro h
    simp only [Bool.or_eq_false_iff] at h
    obtain ⟨⟨⟨h1, h2⟩, h3⟩, h4⟩ := h
    simp [getConstType, h1, h2, h3, h4]

theorem getConstType_prefix_anchored_witness :
    getConstType "5.0" = TYPE_FLOAT ∧ getConstType "-12" = TYPE_INT ∧
    getConstType "\x22hi\x22" = TYPE_STRING ∧ getConstType "true" = TYPE_BOOL ∧
    getConstType "x" = TYPE_UNKNOWN :=
  ⟨(getConstType_prefix_anchored "5.0").1 (by decide),
   (getConstType_prefix_anchored "-12").2.1 (by decide),
   (getConstType_prefix_anchored "\x22hi\x22").2.2.1 (by decide),
   (getConstType_prefix_anchored "true").2.2.2.1 (Or.inl rfl),
   (getConstType_prefix_anchored "x").2.2.2.2 (by decide)⟩
